import Mathlib

/-!
# ADP1055 PMBus framing core

Shallow embedding of `drivers/power/adp1050/adp1055.c` (command-only, write
and read transactions, PEC handling, init and remove) and the properties of
its frames and of its resource handling.

Conventions of the embedding
* machine integers are `Nat` (unsigned) or `Int` (`int` results); a store
  into a `uint8_t` cell reduces modulo 256;
* a frame buffer `uint8_t val[n]` is a `List Nat` of length `n`; a store or a
  transfer that leaves the buffer is undefined behaviour in C and is the
  explicit result `Except.error fault.out_of_bounds` here;
* the bus transport is an external collaborator: its result codes and the
  bytes it delivers are parameters of each operation, and each operation
  returns the list of transport calls it made.
-/

namespace ADP1055

/-! ## Collaborators that are not part of the driver file -/

/-- Undefined behaviour of the C program, made explicit. -/
inductive fault where
  | null_deref
  | out_of_bounds
  deriving DecidableEq, Repr

/-- Modelled from the spec: the InvalidArgument error code of `no_os_error.h`
(not part of the driver sources), with its errno value. -/
def EINVAL : Int := 22

/-- Modelled from the spec: the I/O error class code of `no_os_error.h` (not
part of the driver sources), with its errno value. -/
def EIO : Int := 5

/-- Modelled from the spec: `NO_OS_GENMASK(h, l)` of `no_os_util.h` (not part of
the driver sources), the word whose bits `l..h` are set; the spec calls
`GENMASK(7, 0)` the low byte and `GENMASK(15, 8)` the high byte. -/
def NO_OS_GENMASK (h l : Nat) : Nat := (2 ^ (h + 1) - 1) - (2 ^ l - 1)

/-- Modelled from the spec: index of the lowest set bit of a 32-bit mask, 32
when there is none (helper of `no_os_field_get`, not part of the driver
sources). -/
def no_os_find_first_set_bit (word : Nat) : Nat :=
  ((List.range 32).find? (fun i => word.testBit i)).getD 32

/-- Modelled from the spec: `no_os_field_get(mask, word)` of `no_os_util.h` (not
part of the driver sources): the field of `word` selected by `mask`, moved
down to bit 0. -/
def no_os_field_get (mask word : Nat) : Nat :=
  (word &&& mask) >>> no_os_find_first_set_bit mask

/-- Modelled from the spec: `no_os_crc8(table, pdata, nbytes, crc)` of
`no_os_crc8.h` (not part of the driver sources), the table-driven CRC-8 of
the spec's CRC-8 engine: every byte is folded into the running value through
one table lookup. -/
def no_os_crc8 (table : Nat → Nat) (pdata : List Nat) (crc : Nat) : Nat :=
  pdata.foldl (fun c b => table ((c ^^^ b) % 256) % 256) (crc % 256)

/-- One MSB-first shift step of a CRC-8 register with the given polynomial. -/
def crc8_shift (polynomial c : Nat) : Nat :=
  if c &&& 0x80 ≠ 0 then ((c <<< 1) ^^^ polynomial) % 256 else (c <<< 1) % 256

/-- Modelled from the spec: `no_os_crc8_populate_msb(table, polynomial)` of
`no_os_crc8.h` (not part of the driver sources): entry `n` of the table is
the byte `n` after eight MSB-first shift steps (no reflection, no final
XOR). -/
def no_os_crc8_populate_msb (polynomial : Nat) (n : Nat) : Nat :=
  (crc8_shift polynomial)^[8] (n % 256)

/-! ## Constants of `adp1055.h` -/

def ADP1055_WR_FRAME_SIZE : Nat := 4
def ADP1055_RD_FRAME_SIZE : Nat := 5
def ADP1055_SC_FRAME_SIZE : Nat := 3
def ADP1055_LSB_MASK : Nat := NO_OS_GENMASK 7 0
def ADP1055_MSB_MASK : Nat := NO_OS_GENMASK 15 8
def ADP1055_OPERATION_ON : Nat := 0x80
def ADP1055_OPERATION_OFF : Nat := 0x00
def ADP1055_OPERATION : Nat := 0x01
def CRC8_PEC : Nat := 0x07

/-- Modelled from the spec: `ADP1050_LSB_MASK`, used by the standard-command
branch of the four-argument write but defined in no file of the driver
sources; the spec has the low data byte sent first. -/
def ADP1050_LSB_MASK : Nat := NO_OS_GENMASK 7 0

/-- Modelled from the spec: `ADP1050_MSB_MASK`, used by the standard-command
branch of the four-argument write but defined in no file of the driver
sources; the spec has the high data byte follow the low one. -/
def ADP1050_MSB_MASK : Nat := NO_OS_GENMASK 15 8

/-! ## Data model -/

/-- The part of `struct no_os_i2c_desc` the driver reads (`uint8_t`). -/
structure no_os_i2c_desc where
  slave_address : Nat
  deriving DecidableEq, Repr

/-- Rendering of `struct adp1055_desc`: `i2c_desc` is a pointer (absent when
null), `pece` a `uint8_t` flag (enabled when non-zero). -/
structure adp1055_desc where
  i2c_desc : Option no_os_i2c_desc
  pece : Nat
  deriving DecidableEq, Repr

/-- One call of the bus transport: `no_os_i2c_write(desc, data, n, stop_bit)`
with the `n` bytes handed over, or `no_os_i2c_read(desc, buf, n, stop_bit)`
with the number of bytes asked for. -/
inductive i2c_event where
  | write (data : List Nat) (stop_bit : Nat)
  | read (bytes_number : Nat) (stop_bit : Nat)
  deriving DecidableEq, Repr

/-- Result of a write transaction: the `int` returned and the transport calls
made. -/
structure write_result where
  ret : Int
  trace : List i2c_event
  deriving DecidableEq, Repr

/-- Result of a read transaction: the `int` returned, the caller's output byte
`*data` after the call and the transport calls made. -/
structure read_result where
  ret : Int
  data : Nat
  trace : List i2c_event
  deriving DecidableEq, Repr

/-! ## Frame buffers -/

/-- Store `val[i] = v` into a `uint8_t` buffer. -/
def frame_store (val : List Nat) (i v : Nat) : Except fault (List Nat) :=
  if i < val.length then .ok (val.set i (v % 256)) else .error .out_of_bounds

/-- The `n` bytes `&val[start]` .. that a transfer or the CRC reads. -/
def frame_slice (val : List Nat) (start n : Nat) : Except fault (List Nat) :=
  if start + n ≤ val.length then .ok ((val.drop start).take n) else .error .out_of_bounds

/-- Load `val[i]`. -/
def frame_load (val : List Nat) (i : Nat) : Except fault Nat :=
  match val.get? i with
  | some v => .ok v
  | none => .error .out_of_bounds

/-- The transport read deposits `n` delivered bytes `rx 0, rx 1, ..` at
`&val[start]`. -/
def frame_fill (val : List Nat) (start : Nat) (rx : Nat → Nat) : Nat → Except fault (List Nat)
  | 0 => .ok val
  | n + 1 =>
    match frame_fill val start rx n with
    | .ok v => frame_store v (start + n) (rx n)
    | .error e => .error e

/-! ## The transactions of `adp1055.c` -/

/-- Four-argument `adp1055_write(desc, command, data, byte_num)` (lines
103-140). `ext` is `ADP1055_EXTENDED_COMMAND`, which no file of the driver
sources defines; `table` is the content of the `adp1055_crc8` table;
`i2c_ret` is what the transport write returns. The byte count handed to
`no_os_i2c_write` is a `uint8_t` parameter. -/
def adp1055_write (ext : Nat) (table : Nat → Nat) (i2c_ret : Int)
    (desc : Option adp1055_desc) (command data byte_num : Nat) :
    Except fault write_result :=
  match desc with
  | none => .ok ⟨- EINVAL, []⟩
  | some d =>
    match d.i2c_desc with
    | none => .error .null_deref
    | some i2c => do
      let val : List Nat := [0, 0, 0, 0, 0]
      let crc_frame : Nat := 4
      let val ← frame_store val 0 (i2c.slave_address <<< 1)
      if command > ext then
        let val ← frame_store val 1 (no_os_field_get ADP1055_MSB_MASK command)
        let val ← frame_store val 2 (no_os_field_get ADP1055_LSB_MASK command)
        let (val, crc_frame) ←
          if byte_num > 1 then do
            let val ← frame_store val 3 (no_os_field_get ADP1055_LSB_MASK data)
            let val ← frame_store val 4 (no_os_field_get ADP1055_MSB_MASK data)
            pure (val, 5)
          else do
            let val ← frame_store val 3 (no_os_field_get ADP1055_LSB_MASK data)
            pure (val, crc_frame)
        let covered ← frame_slice val 0 (crc_frame - 1)
        let val ← frame_store val crc_frame (no_os_crc8 table covered 0)
        let sent ← frame_slice val 1 ((byte_num + 3) % 256)
        pure ⟨i2c_ret, [.write sent 1]⟩
      else
        let val ← frame_store val 1 (no_os_field_get ADP1055_LSB_MASK command)
        let val ←
          if byte_num > 1 then do
            let val ← frame_store val 2 (no_os_field_get ADP1055_LSB_MASK data)
            frame_store val 3 (no_os_field_get ADP1050_MSB_MASK data)
          else
            frame_store val 2 (no_os_field_get ADP1050_LSB_MASK data)
        let covered ← frame_slice val 0 (crc_frame - 1)
        let val ← frame_store val crc_frame (no_os_crc8 table covered 0)
        let sent ← frame_slice val 1 ((byte_num + 2) % 256)
        pure ⟨i2c_ret, [.write sent 1]⟩

/-- Function `adp1055_read(desc, command, data)` (lines 149-189). The source
names the buffer of both transfers `i2c_data`, which is declared nowhere: it
is read as `val`, the frame the CRC and the result are taken from; the
condition `(desc->) ? 2 : byte_num` is read as `desc->pece`, as its comment
says. `wr_ret` and `rd_ret` are what the transport write and read return,
`rx i` is the `i`-th byte the transport read delivers, `data` is the content
of the caller's output byte before the call. -/
def adp1055_read (table : Nat → Nat) (wr_ret rd_ret : Int) (rx : Nat → Nat)
    (desc : Option adp1055_desc) (command : Nat) (data : Nat) :
    Except fault read_result :=
  match desc with
  | none => .ok ⟨- EINVAL, data, []⟩
  | some d =>
    match d.i2c_desc with
    | none => .error .null_deref
    | some i2c => do
      let val : List Nat := [0, 0, 0, 0, 0]
      let val ← frame_store val 0 (i2c.slave_address <<< 1)
      let val ← frame_store val 1 command
      let val ← frame_store val 2 ((i2c.slave_address <<< 1) ||| 0x1)
      let byte_num : Nat := 1
      let sent ← frame_slice val 1 byte_num
      let trace : List i2c_event := [.write sent 0]
      if wr_ret ≠ 0 then
        pure ⟨wr_ret, data, trace⟩
      else
        let byte_num : Nat := if d.pece ≠ 0 then 2 else byte_num
        let val ← frame_fill val 3 rx byte_num
        let trace : List i2c_event := trace ++ [.read byte_num 1]
        if rd_ret ≠ 0 then
          pure ⟨rd_ret, data, trace⟩
        else
          let crc_ok ←
            if d.pece ≠ 0 then do
              let covered ← frame_slice val 0 (ADP1055_RD_FRAME_SIZE - 1)
              let crc := no_os_crc8 table covered 0
              let pec ← frame_load val 4
              pure (decide (pec = crc))
            else
              pure true
          if crc_ok then
            let out ← frame_load val 3
            pure ⟨0, out, trace⟩
          else
            pure ⟨- EIO, data, trace⟩

/-- Result of `adp1055_send_command`: the value returned (`none` when control
reaches the closing brace of the function without a `return` statement, so
that the call has no value), the 3-byte frame `val` as built, and the
transport calls made. -/
structure send_result where
  ret : Option Int
  val : List Nat
  trace : List i2c_event
  deriving DecidableEq, Repr

/-- Function `adp1055_send_command(desc, command)` (lines 59-76; the parameter
list of the source lacks the comma between `desc` and `uint16_t command`).
`i2c_ret` is what the transport write returns: the source stores it in the
local `uint8_t ret` and ends without returning it. The transport is handed
`val` itself (not `&val[1]`) with length 1. -/
def adp1055_send_command (table : Nat → Nat) (i2c_ret : Int)
    (desc : Option adp1055_desc) (command : Nat) : Except fault send_result :=
  match desc with
  | none => .ok ⟨some (- EINVAL), [0, 0, 0], []⟩
  | some d =>
    match d.i2c_desc with
    | none => .error .null_deref
    | some i2c => do
      let val : List Nat := [0, 0, 0]
      let val ← frame_store val 0 (i2c.slave_address <<< 1)
      let val ← frame_store val 1 command
      let val ←
        if d.pece ≠ 0 then do
          let covered ← frame_slice val 0 1
          frame_store val 2 (no_os_crc8 table covered 0)
        else
          pure val
      let sent ← frame_slice val 0 1
      let _ret : Int := i2c_ret % 256
      pure ⟨none, val, [.write sent 1]⟩

/-- Three-argument `adp1055_write(desc, command, data)` (lines 84-101), the
legacy form that shares its C name with the four-argument one. `i2c_ret` is
what the transport write returns. -/
def adp1055_write_legacy (table : Nat → Nat) (i2c_ret : Int)
    (desc : Option adp1055_desc) (command data : Nat) : Except fault write_result :=
  match desc with
  | none => .ok ⟨- EINVAL, []⟩
  | some d =>
    match d.i2c_desc with
    | none => .error .null_deref
    | some i2c => do
      let val : List Nat := [0, 0, 0, 0]
      let byte_num : Nat := if d.pece ≠ 0 then ADP1055_WR_FRAME_SIZE - 1 else 2
      let val ← frame_store val 0 (i2c.slave_address <<< 1)
      let val ← frame_store val 1 command
      let val ← frame_store val 2 (no_os_field_get ADP1055_LSB_MASK data)
      let val ←
        if d.pece ≠ 0 then do
          let covered ← frame_slice val 0 byte_num
          frame_store val 3 (no_os_crc8 table covered 0)
        else
          pure val
      let sent ← frame_slice val 1 byte_num
      pure ⟨i2c_ret, [.write sent 1]⟩

/-! ## Device lifecycle -/

/-- Modelled from the spec: the no-device error code of `no_os_error.h` (not
part of the driver sources), with its errno value. -/
def ENODEV : Int := 19

/-- Modelled from the spec: the OutOfMemory error code of `no_os_error.h` (not
part of the driver sources), with its errno value. -/
def ENOMEM : Int := 12

def ADP1050_ON_OFF_CONFIG : Nat := 0x02

/-- Modelled from the spec: `ADP1050_OPERATION`, the command of the device-on
write of init; no file of the driver sources defines it, the header has the
same command as `ADP1055_OPERATION`. -/
def ADP1050_OPERATION : Nat := ADP1055_OPERATION

/-- Modelled from the spec: `ADP1050_OPERATION_ON`, the data of the device-on
write of init; no file of the driver sources defines it, the header has the
same value as `ADP1055_OPERATION_ON`. -/
def ADP1050_OPERATION_ON : Nat := ADP1055_OPERATION_ON

/-- The part of `struct no_os_i2c_init_param` that reaches the driver. -/
structure no_os_i2c_init_param where
  slave_address : Nat
  deriving DecidableEq, Repr

/-- Rendering of `struct adp1055_init_param`. The header declares `i2c_param`
and `pece`; `on_off_config` is the field `adp1055_init` reads although the
header does not declare it. -/
structure adp1055_init_param where
  i2c_param : no_os_i2c_init_param
  pece : Nat
  on_off_config : Nat
  deriving DecidableEq, Repr

/-- One call `adp1055_write(desc, command, data, byte_num)` of the
four-argument write. -/
structure write_call where
  command : Nat
  data : Nat
  byte_num : Nat
  deriving DecidableEq, Repr

/-- Result of `adp1055_remove`: the `int` returned, the write transactions
issued, the transport calls made, whether `no_os_i2c_remove` was called on
the transport handle and whether `no_os_free` was called on the
descriptor. -/
structure remove_result where
  ret : Int
  calls : List write_call
  trace : List i2c_event
  i2c_removed : Bool
  desc_freed : Bool
  deriving DecidableEq, Repr

/-- Result of `adp1055_init`: the `int` returned, the descriptor stored through
the caller's `desc` pointer (`none` when the call stores nothing there), the
write transactions issued, the transport calls made, whether a transport
handle was created, whether it and the descriptor were released before the
return, and the descriptor as the call built it (`none` when the allocation
failed). -/
structure init_result where
  ret : Int
  out : Option adp1055_desc
  calls : List write_call
  trace : List i2c_event
  i2c_created : Bool
  i2c_removed : Bool
  desc_freed : Bool
  descriptor : Option adp1055_desc
  deriving DecidableEq, Repr

/-- Function `adp1055_remove(desc)` (lines 231-248). `i2c_ret` is what the
transport write of the device-off transaction returns. -/
def adp1055_remove (ext : Nat) (table : Nat → Nat) (i2c_ret : Int)
    (desc : Option adp1055_desc) : Except fault remove_result :=
  match desc with
  | none => .ok ⟨- ENODEV, [], [], false, false⟩
  | some d =>
    match d.i2c_desc with
    | some _ => do
      let w ← adp1055_write ext table i2c_ret (some d) ADP1055_OPERATION ADP1055_OPERATION_OFF 1
      let calls : List write_call := [⟨ADP1055_OPERATION, ADP1055_OPERATION_OFF, 1⟩]
      if w.ret ≠ 0 then
        pure ⟨w.ret, calls, w.trace, false, false⟩
      else
        pure ⟨0, calls, w.trace, true, true⟩
    | none => .ok ⟨0, [], [], true, true⟩

/-- The statements at the label `free_desc` of `adp1055_init` (lines 220-223):
the call `adp1050_remove(descriptor)`, whose result is dropped, and
`return ret`. No file of the driver sources defines `adp1050_remove`; it is
read as `adp1055_remove`, which the source documents as freeing what
`adp1055_init` allocated. Nothing on this path stores to `*desc`. -/
def free_desc (ext : Nat) (table : Nat → Nat) (i2c_ret : Int) (ret : Int)
    (descriptor : adp1055_desc) (calls : List write_call) (trace : List i2c_event) :
    Except fault init_result := do
  let r ← adp1055_remove ext table i2c_ret (some descriptor)
  pure ⟨ret, none, calls ++ r.calls, trace ++ r.trace, descriptor.i2c_desc.isSome,
    r.i2c_removed, r.desc_freed, some descriptor⟩

/-- Function `adp1055_init(desc, init_param)` (lines 198-224). `alloc_ok` tells
whether `no_os_calloc` returns memory (zeroed, so `pece` is 0 and `i2c_desc`
null), `i2c_init_ret` is what `no_os_i2c_init` returns (a handle exists
afterwards exactly when it is 0), `wr k` is what the `k`-th transport write
of the call returns. The source spells the descriptor `decriptor` in the
second write. After the second write both the `goto` and the fall-through
reach `free_desc`. -/
def adp1055_init (ext : Nat) (table : Nat → Nat) (alloc_ok : Bool) (i2c_init_ret : Int)
    (wr : Nat → Int) (init_param : adp1055_init_param) : Except fault init_result :=
  if alloc_ok = false then
    .ok ⟨- ENOMEM, none, [], [], false, false, false, none⟩
  else
    let descriptor : adp1055_desc := ⟨none, 0⟩
    if i2c_init_ret ≠ 0 then
      free_desc ext table (wr 0) i2c_init_ret descriptor [] []
    else do
      let descriptor : adp1055_desc :=
        ⟨some ⟨init_param.i2c_param.slave_address⟩, descriptor.pece⟩
      let w1 ← adp1055_write ext table (wr 0) (some descriptor)
        ADP1050_OPERATION ADP1050_OPERATION_ON 1
      let calls : List write_call := [⟨ADP1050_OPERATION, ADP1050_OPERATION_ON, 1⟩]
      if w1.ret ≠ 0 then
        free_desc ext table (wr 1) w1.ret descriptor calls w1.trace
      else
        let w2 ← adp1055_write ext table (wr 1) (some descriptor)
          ADP1050_ON_OFF_CONFIG (init_param.on_off_config % 65536) 1
        let calls : List write_call :=
          calls ++ [⟨ADP1050_ON_OFF_CONFIG, init_param.on_off_config % 65536, 1⟩]
        free_desc ext table (wr 2) w2.ret descriptor calls (w1.trace ++ w2.trace)

/-! ## The PEC table as the driver leaves it -/

/-- Content of the table `adp1055_crc8` when a transaction runs. Line 46 only
declares the table (`NO_OS_DECLARE_CRC8_TABLE(adp1055_crc8)`, a static array
of 256 bytes); no statement of `adp1055.c` stores to it or hands it to
`no_os_crc8_populate_msb`, and `CRC8_PEC` of the header is used nowhere, so
every entry keeps its static initial value 0. -/
def adp1055_crc8 : Nat → Nat := fun _ => 0

/-- Modelled from the spec: the CRC-8 engine in the words of the spec (section
4.1), computed bit by bit: polynomial x^8+x^2+x+1 (0x07), MSB-first, no input
or output reflection, no final XOR. Each byte is XORed into the 8-bit
register, which then takes eight MSB-first shift steps. -/
def crc8 (data : List Nat) (seed : Nat) : Nat :=
  data.foldl (fun c b => (crc8_shift 0x07)^[8] ((c ^^^ b) % 256)) (seed % 256)

/-- Inverse of one `crc8_shift` step for the polynomial 0x07 (a proof device:
it shows that the populated table is injective). -/
def crc8_unshift (z : Nat) : Nat :=
  if z % 2 = 1 then ((z ^^^ 0x07) >>> 1) ||| 0x80 else z >>> 1

/-- The two bytes a transport read delivers, as the function `rx` that
`adp1055_read` takes. -/
def rx_pair (b0 b1 : Nat) : Nat → Nat := fun i => if i = 0 then b0 else b1

/-! ## Bit fields and the CRC engine -/

theorem first_set_bit_lsb : no_os_find_first_set_bit ADP1055_LSB_MASK = 0 := by decide

theorem first_set_bit_msb : no_os_find_first_set_bit ADP1055_MSB_MASK = 8 := by decide

theorem field_get_lsb (x : Nat) : no_os_field_get ADP1055_LSB_MASK x = x % 256 := by
  unfold no_os_field_get
  rw [first_set_bit_lsb]
  have h : ADP1055_LSB_MASK = 2 ^ 8 - 1 := by decide
  rw [h, Nat.and_pow_two_sub_one_eq_mod]
  simp

theorem field_get_msb (x : Nat) : no_os_field_get ADP1055_MSB_MASK x = x / 256 % 256 := by
  unfold no_os_field_get
  rw [first_set_bit_msb]
  have h : ADP1055_MSB_MASK = (2 ^ 8 - 1) <<< 8 := by decide
  have e : x / 256 % 256 = (x >>> 8) % 2 ^ 8 := by
    rw [Nat.shiftRight_eq_div_pow]; norm_num
  rw [h, e]
  apply Nat.eq_of_testBit_eq
  intro j
  simp only [Nat.testBit_shiftRight, Nat.testBit_and, Nat.testBit_shiftLeft,
    Nat.testBit_mod_two_pow, Nat.testBit_two_pow_sub_one]
  by_cases hj : j < 8
  · simp [hj]
  · simp [hj]

theorem field_get_lsb_1050 (x : Nat) : no_os_field_get ADP1050_LSB_MASK x = x % 256 :=
  field_get_lsb x

theorem field_get_msb_1050 (x : Nat) : no_os_field_get ADP1050_MSB_MASK x = x / 256 % 256 :=
  field_get_msb x

theorem no_os_crc8_lt (table : Nat → Nat) (pdata : List Nat) (crc : Nat) :
    no_os_crc8 table pdata crc < 256 := by
  unfold no_os_crc8
  have h : ∀ (l : List Nat) (c : Nat), c < 256 →
      l.foldl (fun c b => table ((c ^^^ b) % 256) % 256) c < 256 := by
    intro l
    induction l with
    | nil => intro c hc; simpa using hc
    | cons b t ih => intro c _; exact ih _ (Nat.mod_lt _ (by norm_num))
  exact h pdata _ (Nat.mod_lt _ (by norm_num))

theorem crc8_mod (table : Nat → Nat) (pdata : List Nat) (crc : Nat) :
    no_os_crc8 table pdata crc % 256 = no_os_crc8 table pdata crc :=
  Nat.mod_eq_of_lt (no_os_crc8_lt table pdata crc)

/-- With the unpopulated table every PEC the driver computes is 0. -/
theorem crc8_unpopulated (pdata : List Nat) (crc : Nat) (h : pdata ≠ []) :
    no_os_crc8 adp1055_crc8 pdata crc = 0 := by
  unfold no_os_crc8
  have hz : ∀ (l : List Nat),
      l.foldl (fun c b => adp1055_crc8 ((c ^^^ b) % 256) % 256) 0 = 0 := by
    intro l
    induction l with
    | nil => rfl
    | cons b t ih => simpa [adp1055_crc8] using ih
  cases pdata with
  | nil => exact absurd rfl h
  | cons b t => simpa [adp1055_crc8] using hz t

/-! ## What the four-argument write hands to the transport -/

theorem write_standard_one (ext : Nat) (table : Nat → Nat) (i2c_ret : Int)
    (i2c : no_os_i2c_desc) (pece command data : Nat) (h : command ≤ ext) :
    adp1055_write ext table i2c_ret (some ⟨some i2c, pece⟩) command data 1 =
      .ok ⟨i2c_ret, [.write [command % 256, data % 256, 0] 1]⟩ := by
  have hn : ¬ command > ext := Nat.not_lt.mpr h
  simp [adp1055_write, hn, frame_store, frame_slice, bind, Except.bind, pure, Except.pure,
    field_get_lsb, field_get_lsb_1050, crc8_mod]

theorem write_standard_two (ext : Nat) (table : Nat → Nat) (i2c_ret : Int)
    (i2c : no_os_i2c_desc) (pece command data : Nat) (h : command ≤ ext) :
    adp1055_write ext table i2c_ret (some ⟨some i2c, pece⟩) command data 2 =
      .ok ⟨i2c_ret, [.write [command % 256, data % 256, data / 256 % 256,
        no_os_crc8 table [(i2c.slave_address <<< 1) % 256, command % 256, data % 256] 0] 1]⟩ := by
  have hn : ¬ command > ext := Nat.not_lt.mpr h
  simp [adp1055_write, hn, frame_store, frame_slice, bind, Except.bind, pure, Except.pure,
    field_get_lsb, field_get_msb_1050, crc8_mod]

theorem write_extended_one (ext : Nat) (table : Nat → Nat) (i2c_ret : Int)
    (i2c : no_os_i2c_desc) (pece command data : Nat) (h : ext < command) :
    adp1055_write ext table i2c_ret (some ⟨some i2c, pece⟩) command data 1 =
      .ok ⟨i2c_ret, [.write [command / 256 % 256, command % 256, data % 256,
        no_os_crc8 table [(i2c.slave_address <<< 1) % 256, command / 256 % 256,
          command % 256] 0] 1]⟩ := by
  simp [adp1055_write, h, frame_store, frame_slice, bind, Except.bind, pure, Except.pure,
    field_get_lsb, field_get_msb, crc8_mod]

theorem write_extended_two (ext : Nat) (table : Nat → Nat) (i2c_ret : Int)
    (i2c : no_os_i2c_desc) (pece command data : Nat) (h : ext < command) :
    adp1055_write ext table i2c_ret (some ⟨some i2c, pece⟩) command data 2 =
      .error .out_of_bounds := by
  simp [adp1055_write, h, frame_store, frame_slice, bind, Except.bind, pure, Except.pure,
    field_get_lsb, field_get_msb, crc8_mod]

/-! ## What the read does on each path -/

theorem read_null (table : Nat → Nat) (wr_ret rd_ret : Int) (rx : Nat → Nat)
    (command data : Nat) :
    adp1055_read table wr_ret rd_ret rx none command data = .ok ⟨- EINVAL, data, []⟩ := rfl

theorem read_no_transport (table : Nat → Nat) (wr_ret rd_ret : Int) (rx : Nat → Nat)
    (pece command data : Nat) :
    adp1055_read table wr_ret rd_ret rx (some ⟨none, pece⟩) command data =
      .error .null_deref := rfl

theorem read_write_fails (table : Nat → Nat) (wr_ret rd_ret : Int) (rx : Nat → Nat)
    (i2c : no_os_i2c_desc) (pece command data : Nat) (h : wr_ret ≠ 0) :
    adp1055_read table wr_ret rd_ret rx (some ⟨some i2c, pece⟩) command data =
      .ok ⟨wr_ret, data, [.write [command % 256] 0]⟩ := by
  simp [adp1055_read, h, frame_store, frame_slice, bind, Except.bind, pure, Except.pure]

theorem read_read_fails (table : Nat → Nat) (rd_ret : Int) (rx : Nat → Nat)
    (i2c : no_os_i2c_desc) (pece command data : Nat) (h : rd_ret ≠ 0) :
    adp1055_read table 0 rd_ret rx (some ⟨some i2c, pece⟩) command data =
      .ok ⟨rd_ret, data, [.write [command % 256] 0,
        .read (if pece ≠ 0 then 2 else 1) 1]⟩ := by
  by_cases hp : pece = 0
  · simp [adp1055_read, h, hp, frame_store, frame_slice, frame_fill, bind, Except.bind, pure,
      Except.pure]
  · simp [adp1055_read, h, hp, frame_store, frame_slice, frame_fill, bind, Except.bind, pure,
      Except.pure]

theorem read_no_pec (table : Nat → Nat) (rx : Nat → Nat)
    (i2c : no_os_i2c_desc) (command data : Nat) :
    adp1055_read table 0 0 rx (some ⟨some i2c, 0⟩) command data =
      .ok ⟨0, rx 0 % 256, [.write [command % 256] 0, .read 1 1]⟩ := by
  simp [adp1055_read, frame_store, frame_slice, frame_fill, frame_load, bind, Except.bind, pure,
      Except.pure]

theorem read_pec (table : Nat → Nat) (rx : Nat → Nat)
    (i2c : no_os_i2c_desc) (pece command data : Nat) (hp : pece ≠ 0) :
    adp1055_read table 0 0 rx (some ⟨some i2c, pece⟩) command data =
      .ok (if rx 1 % 256 = no_os_crc8 table [(i2c.slave_address <<< 1) % 256, command % 256,
          ((i2c.slave_address <<< 1) ||| 0x1) % 256, rx 0 % 256] 0
        then ⟨0, rx 0 % 256, [.write [command % 256] 0, .read 2 1]⟩
        else ⟨- EIO, data, [.write [command % 256] 0, .read 2 1]⟩) := by
  by_cases hc : rx 1 % 256 = no_os_crc8 table [(i2c.slave_address <<< 1) % 256, command % 256,
          ((i2c.slave_address <<< 1) ||| 0x1) % 256, rx 0 % 256] 0
  · rw [if_pos hc]
    simp [adp1055_read, hp, hc, frame_store, frame_slice, frame_fill, frame_load, bind,
      Except.bind, pure, Except.pure, ADP1055_RD_FRAME_SIZE]
  · rw [if_neg hc]
    simp [adp1055_read, hp, hc, frame_store, frame_slice, frame_fill, frame_load, bind,
      Except.bind, pure, Except.pure, ADP1055_RD_FRAME_SIZE]

/-- A handle that owns its transport always gets a result from the read. -/
theorem read_defined (table : Nat → Nat) (wr_ret rd_ret : Int) (rx : Nat → Nat)
    (i2c : no_os_i2c_desc) (pece command data : Nat) :
    ∃ r, adp1055_read table wr_ret rd_ret rx (some ⟨some i2c, pece⟩) command data = .ok r := by
  by_cases hw : wr_ret = 0
  · subst hw
    by_cases hr : rd_ret = 0
    · subst hr
      by_cases hp : pece = 0
      · subst hp; exact ⟨_, read_no_pec table rx i2c command data⟩
      · exact ⟨_, read_pec table rx i2c pece command data hp⟩
    · exact ⟨_, read_read_fails table rd_ret rx i2c pece command data hr⟩
  · exact ⟨_, read_write_fails table wr_ret rd_ret rx i2c pece command data hw⟩

/-! ## The populated table detects a corrupted byte -/

set_option maxRecDepth 100000 in
theorem populate_left_inverse :
    ∀ n, n < 256 → crc8_unshift^[8] (no_os_crc8_populate_msb CRC8_PEC n) = n := by
  decide

set_option maxRecDepth 100000 in
theorem populate_lt : ∀ n, n < 256 → no_os_crc8_populate_msb CRC8_PEC n < 256 := by
  decide

theorem populate_injective (x y : Nat) (hx : x < 256) (hy : y < 256)
    (h : no_os_crc8_populate_msb CRC8_PEC x = no_os_crc8_populate_msb CRC8_PEC y) : x = y := by
  rw [← populate_left_inverse x hx, ← populate_left_inverse y hy, h]

theorem crc8_snoc (table : Nat → Nat) (pre : List Nat) (d crc : Nat) :
    no_os_crc8 table (pre ++ [d]) crc = table ((no_os_crc8 table pre crc ^^^ d) % 256) % 256 := by
  simp [no_os_crc8, List.foldl_append]

/-- With the table populated for the polynomial 0x07, two frames that differ in
their last byte only have different PECs. -/
theorem crc8_populated_last_byte (pre : List Nat) (d e : Nat) (hd : d < 256) (he : e < 256)
    (hne : e ≠ d) :
    no_os_crc8 (no_os_crc8_populate_msb CRC8_PEC) (pre ++ [e]) 0 ≠
      no_os_crc8 (no_os_crc8_populate_msb CRC8_PEC) (pre ++ [d]) 0 := by
  intro h
  rw [crc8_snoc, crc8_snoc] at h
  have hs := no_os_crc8_lt (no_os_crc8_populate_msb CRC8_PEC) pre 0
  have h1 : no_os_crc8 (no_os_crc8_populate_msb CRC8_PEC) pre 0 ^^^ e < 256 :=
    Nat.xor_lt_two_pow (n := 8) hs he
  have h2 : no_os_crc8 (no_os_crc8_populate_msb CRC8_PEC) pre 0 ^^^ d < 256 :=
    Nat.xor_lt_two_pow (n := 8) hs hd
  rw [Nat.mod_eq_of_lt h1, Nat.mod_eq_of_lt h2,
    Nat.mod_eq_of_lt (populate_lt _ h1), Nat.mod_eq_of_lt (populate_lt _ h2)] at h
  have h3 := populate_injective _ _ h1 h2 h
  exact hne (Nat.xor_right_injective h3)

/-- With the table populated for the polynomial 0x07, a read whose data byte
arrives changed (PEC byte intact) fails with the I/O error and leaves the
output byte alone; so does a read whose PEC byte arrives changed. -/
theorem read_populated_detects (i2c : no_os_i2c_desc) (pece command data d e : Nat)
    (hp : pece ≠ 0) (hd : d < 256) (he : e < 256) (hne : e ≠ d) :
    adp1055_read (no_os_crc8_populate_msb CRC8_PEC) 0 0
        (rx_pair e (no_os_crc8 (no_os_crc8_populate_msb CRC8_PEC)
          [(i2c.slave_address <<< 1) % 256, command % 256,
            ((i2c.slave_address <<< 1) ||| 0x1) % 256, d] 0))
        (some ⟨some i2c, pece⟩) command data =
      .ok ⟨- EIO, data, [.write [command % 256] 0, .read 2 1]⟩ ∧
    adp1055_read (no_os_crc8_populate_msb CRC8_PEC) 0 0
        (rx_pair d e) (some ⟨some i2c, pece⟩) command data =
      .ok (if e = no_os_crc8 (no_os_crc8_populate_msb CRC8_PEC)
          [(i2c.slave_address <<< 1) % 256, command % 256,
            ((i2c.slave_address <<< 1) ||| 0x1) % 256, d] 0
        then ⟨0, d, [.write [command % 256] 0, .read 2 1]⟩
        else ⟨- EIO, data, [.write [command % 256] 0, .read 2 1]⟩) := by
  have key := crc8_populated_last_byte [(i2c.slave_address <<< 1) % 256, command % 256,
            ((i2c.slave_address <<< 1) ||| 0x1) % 256] d e hd he hne
  simp only [List.cons_append, List.nil_append] at key
  constructor
  · rw [read_pec _ _ _ _ _ _ hp]
    simp only [rx_pair, if_true, if_false, Nat.one_ne_zero, crc8_mod, Nat.mod_eq_of_lt he]
    rw [if_neg (fun h => key h.symm)]
  · rw [read_pec _ _ _ _ _ _ hp]
    simp only [rx_pair, if_true, if_false, Nat.one_ne_zero, Nat.mod_eq_of_lt he,
      Nat.mod_eq_of_lt hd]

/-! ## Write transaction: frame length, PEC and layout -/

/-- C1: the transmitted length of the four-argument write does not depend on
`pece`. With pece disabled, command 0x01, data 0x80 and byte count 1 the
transport receives the three bytes [0x01, 0x80, 0x00], not the two bytes
[0x01, 0x80]: a byte follows the data byte. This holds for every slave
address, table content, transport result and threshold at or above 1. -/
theorem adp1055_write_pece_disabled_extra_byte (ext : Nat) (table : Nat → Nat)
    (i2c_ret : Int) (i2c : no_os_i2c_desc) :
    adp1055_write (ext + 1) table i2c_ret (some ⟨some i2c, 0⟩) 0x01 0x80 1 =
      .ok ⟨i2c_ret, [.write [0x01, 0x80, 0x00] 1]⟩ := by
  rw [write_standard_one (ext + 1) table i2c_ret i2c 0 0x01 0x80 (Nat.le_add_left 1 ext)]

/-- C2: with pece enabled, slave address 0x70, command 0x01, data 0x80 and byte
count 1 the last byte handed to the transport is 0x00, while the CRC-8
(polynomial 0x07, seed 0) of [0xE0, 0x01, 0x80] is 0x52: the PEC is stored
at frame index 4, behind the three bytes that are transmitted. With two
data bytes the trailing PEC covers [address, command, low data byte] only,
so it differs from the CRC-8 of all the bytes before it (0x52 against
0xC7 for data 0x1280). -/
theorem adp1055_write_last_byte_is_not_pec :
    adp1055_write 0xFF (no_os_crc8_populate_msb CRC8_PEC) 0 (some ⟨some ⟨0x70⟩, 1⟩) 0x01 0x80 1 =
      .ok ⟨0, [.write [0x01, 0x80, 0x00] 1]⟩ ∧
    no_os_crc8 (no_os_crc8_populate_msb CRC8_PEC) [0xE0, 0x01, 0x80] 0 = 0x52 ∧
    adp1055_write 0xFF (no_os_crc8_populate_msb CRC8_PEC) 0 (some ⟨some ⟨0x70⟩, 1⟩) 0x01 0x1280 2 =
      .ok ⟨0, [.write [0x01, 0x80, 0x12, 0x52] 1]⟩ ∧
    no_os_crc8 (no_os_crc8_populate_msb CRC8_PEC) [0xE0, 0x01, 0x80, 0x12] 0 = 0xC7 := by
  refine ⟨?_, by decide, ?_, by decide⟩
  · rw [write_standard_one 0xFF _ 0 ⟨0x70⟩ 1 0x01 0x80 (by decide)]
  · rw [write_standard_two 0xFF _ 0 ⟨0x70⟩ 1 0x01 0x1280 (by decide)]
    have h : no_os_crc8 (no_os_crc8_populate_msb CRC8_PEC)
        [((⟨0x70⟩ : no_os_i2c_desc).slave_address <<< 1) % 256, 0x01 % 256, 0x1280 % 256] 0
          = 0x52 := by decide
    rw [h]

/-- C3: for a standard command (command at or below the threshold) and a byte
count of 1 or 2, the four-argument write makes one transport write whose
bytes begin with the command byte, then the low byte of data, then (byte
count 2) the high byte of data. -/
theorem adp1055_write_standard_layout (ext : Nat) (table : Nat → Nat) (i2c_ret : Int)
    (i2c : no_os_i2c_desc) (pece command data byte_num : Nat)
    (hstd : command ≤ ext) (hbn : byte_num = 1 ∨ byte_num = 2) :
    ∃ sent, adp1055_write ext table i2c_ret (some ⟨some i2c, pece⟩) command data byte_num =
        .ok ⟨i2c_ret, [.write sent 1]⟩ ∧
      sent.take (1 + byte_num) = command % 256 ::
        (if byte_num = 2 then [data % 256, data / 256 % 256] else [data % 256]) := by
  rcases hbn with h | h
  · subst h
    exact ⟨_, write_standard_one ext table i2c_ret i2c pece command data hstd, by simp⟩
  · subst h
    exact ⟨_, write_standard_two ext table i2c_ret i2c pece command data hstd, by simp⟩

theorem adp1055_write_standard_layout_witness :
    0x21 ≤ 0xFF ∧ ((2 : Nat) = 1 ∨ (2 : Nat) = 2) ∧
    ∃ sent, adp1055_write 0xFF adp1055_crc8 0 (some ⟨some ⟨0x70⟩, 1⟩) 0x21 0x1280 2 =
        .ok ⟨0, [.write sent 1]⟩ ∧
      sent.take 3 = [0x21, 0x80, 0x12] :=
  ⟨by decide, Or.inr rfl,
    adp1055_write_standard_layout 0xFF adp1055_crc8 0 ⟨0x70⟩ 1 0x21 0x1280 2
      (by decide) (Or.inr rfl)⟩

/-- C4: for an extended command and byte count 2 the four-argument write stores
the PEC at index 5 of its 5-byte frame and asks the transport for 5 bytes
from index 1: both leave the buffer, so the call has no defined behaviour
(for every threshold, here with the command just above it). -/
theorem adp1055_write_extended_two_out_of_bounds (ext : Nat) (table : Nat → Nat)
    (i2c_ret : Int) (i2c : no_os_i2c_desc) (pece data : Nat) :
    adp1055_write ext table i2c_ret (some ⟨some i2c, pece⟩) (ext + 1) data 2 =
      .error .out_of_bounds :=
  write_extended_two ext table i2c_ret i2c pece (ext + 1) data (Nat.lt_succ_self ext)

/-! ## Read transaction -/

/-- With pece enabled and both transport phases succeeding, the read returns 0
exactly when the second delivered byte equals what `no_os_crc8` computes
over the table handed to it, for [address << 1, command,
(address << 1) | 1, first delivered byte], and returns -EIO otherwise. -/
theorem read_pec_compare (table : Nat → Nat) (rx : Nat → Nat)
    (i2c : no_os_i2c_desc) (pece command data : Nat) (hp : pece ≠ 0) :
    ∃ r, adp1055_read table 0 0 rx (some ⟨some i2c, pece⟩) command data = .ok r ∧
      (r.ret = 0 ↔ rx 1 % 256 = no_os_crc8 table [(i2c.slave_address <<< 1) % 256,
        command % 256, ((i2c.slave_address <<< 1) ||| 0x1) % 256, rx 0 % 256] 0) ∧
      (r.ret ≠ 0 → r.ret = - EIO) := by
  refine ⟨_, read_pec table rx i2c pece command data hp, ?_, ?_⟩
  · split_ifs with hc
    · simp [hc]
    · simp [hc, EIO]
  · split_ifs with hc
    · simp
    · simp

set_option maxRecDepth 100000 in
/-- C5: with the PEC table as the driver leaves it, the read does not validate
against the CRC-8. Slave address 0x70, pece enabled, command 0x01, both
transport phases succeeding: the CRC-8 (polynomial 0x07, seed 0) of
[0xE0, 0x01, 0xE1, 0x12] is 0x27, yet the delivered pair (0x12, 0x27) is
refused with -EIO and the output byte left alone, while the delivered pair
(0x12, 0x00), whose second byte is not that CRC-8, is accepted. -/
theorem adp1055_read_refuses_true_pec :
    crc8 [0xE0, 0x01, 0xE1, 0x12] 0 = 0x27 ∧
    adp1055_read adp1055_crc8 0 0 (rx_pair 0x12 0x27) (some ⟨some ⟨0x70⟩, 1⟩) 0x01 0xAA =
      .ok ⟨- EIO, 0xAA, [.write [0x01] 0, .read 2 1]⟩ ∧
    adp1055_read adp1055_crc8 0 0 (rx_pair 0x12 0x00) (some ⟨some ⟨0x70⟩, 1⟩) 0x01 0xAA =
      .ok ⟨0, 0x12, [.write [0x01] 0, .read 2 1]⟩ := by
  refine ⟨by decide, ?_, ?_⟩
  · rw [read_pec _ _ _ _ _ _ (by decide), if_neg (by decide)]
  · rw [read_pec _ _ _ _ _ _ (by decide), if_pos (by decide)]
    rfl

/-- C6: whenever the read returns a non-zero result (null handle, transport
failure in either phase, PEC mismatch), the caller's output byte is what it
was before the call. -/
theorem adp1055_read_failure_keeps_output (table : Nat → Nat) (wr_ret rd_ret : Int)
    (rx : Nat → Nat) (desc : Option adp1055_desc) (command data : Nat) (r : read_result)
    (hr : adp1055_read table wr_ret rd_ret rx desc command data = .ok r)
    (hret : r.ret ≠ 0) : r.data = data := by
  rcases desc with _ | ⟨_ | i2c, pece⟩
  · rw [read_null] at hr
    injection hr with hr
    subst hr
    rfl
  · rw [read_no_transport] at hr
    cases hr
  · by_cases hw : wr_ret = 0
    · subst hw
      by_cases hd : rd_ret = 0
      · subst hd
        by_cases hp : pece = 0
        · subst hp
          rw [read_no_pec] at hr
          injection hr with hr
          subst hr
          exact absurd rfl hret
        · rw [read_pec table rx i2c pece command data hp] at hr
          injection hr with hr
          subst hr
          split_ifs at hret ⊢ with hc
          · exact absurd rfl hret
          · rfl
      · rw [read_read_fails table rd_ret rx i2c pece command data hd] at hr
        injection hr with hr
        subst hr
        rfl
    · rw [read_write_fails table wr_ret rd_ret rx i2c pece command data hw] at hr
      injection hr with hr
      subst hr
      rfl

set_option maxRecDepth 100000 in
theorem adp1055_read_failure_keeps_output_witness :
    adp1055_read (no_os_crc8_populate_msb CRC8_PEC) 0 0 (rx_pair 0x12 0x34)
        (some ⟨some ⟨0x70⟩, 1⟩) 0x01 0xAA =
      .ok ⟨- EIO, 0xAA, [.write [0x01] 0, .read 2 1]⟩ ∧
    (- EIO : Int) ≠ 0 ∧
    (⟨- EIO, 0xAA, [.write [0x01] 0, .read 2 1]⟩ : read_result).data = 0xAA :=
  have run : adp1055_read (no_os_crc8_populate_msb CRC8_PEC) 0 0 (rx_pair 0x12 0x34)
      (some ⟨some ⟨0x70⟩, 1⟩) 0x01 0xAA =
        .ok ⟨- EIO, 0xAA, [.write [0x01] 0, .read 2 1]⟩ := by
    rw [read_pec _ _ _ _ _ _ (by decide), if_neg (by decide)]
  ⟨run, by decide,
    adp1055_read_failure_keeps_output (no_os_crc8_populate_msb CRC8_PEC) 0 0
      (rx_pair 0x12 0x34) (some ⟨some ⟨0x70⟩, 1⟩) 0x01 0xAA
      ⟨- EIO, 0xAA, [.write [0x01] 0, .read 2 1]⟩ run (by decide)⟩

set_option maxRecDepth 100000 in
/-- C7: the driver never populates its PEC table, so the PEC it computes is 0 for
every frame and a single flipped bit goes unnoticed. Slave address 0x70,
command 0x01, pece enabled, both phases succeeding: for data byte 0x12 the
driver PEC is 0x00, and the delivered pair (0x13, 0x00), one data bit
flipped, is accepted with the corrupted byte 0x13 stored in the output. For
data byte 0xAB the CRC-8 (polynomial 0x07) of the frame is 0x01, and the
delivered pair (0xAB, 0x00), one PEC bit flipped, is accepted as well. -/
theorem adp1055_read_accepts_flipped_bit :
    no_os_crc8 adp1055_crc8 [0xE0, 0x01, 0xE1, 0x12] 0 = 0x00 ∧
    adp1055_read adp1055_crc8 0 0 (rx_pair 0x13 0x00) (some ⟨some ⟨0x70⟩, 1⟩) 0x01 0xAA =
      .ok ⟨0, 0x13, [.write [0x01] 0, .read 2 1]⟩ ∧
    no_os_crc8 (no_os_crc8_populate_msb CRC8_PEC) [0xE0, 0x01, 0xE1, 0xAB] 0 = 0x01 ∧
    adp1055_read adp1055_crc8 0 0 (rx_pair 0xAB 0x00) (some ⟨some ⟨0x70⟩, 1⟩) 0x01 0xAA =
      .ok ⟨0, 0xAB, [.write [0x01] 0, .read 2 1]⟩ := by
  refine ⟨by decide, ?_, by decide, ?_⟩
  · rw [read_pec _ _ _ _ _ _ (by decide), if_pos (by decide)]
    rfl
  · rw [read_pec _ _ _ _ _ _ (by decide), if_pos (by decide)]
    rfl

/-- C8: for a handle that owns its transport, the read first makes one transport
write of the single command byte without a stop condition; when that write
succeeds it then makes one transport read with a stop condition, of length
1 with pece disabled and 2 with pece enabled; it makes no other transport
call (after a failed write there is none at all). -/
theorem adp1055_read_transport_sequence (table : Nat → Nat) (wr_ret rd_ret : Int)
    (rx : Nat → Nat) (i2c : no_os_i2c_desc) (pece command data : Nat) :
    ∃ r, adp1055_read table wr_ret rd_ret rx (some ⟨some i2c, pece⟩) command data = .ok r ∧
      r.trace = .write [command % 256] 0 ::
        (if wr_ret = 0 then [.read (if pece = 0 then 1 else 2) 1] else []) := by
  by_cases hw : wr_ret = 0
  · subst hw
    by_cases hd : rd_ret = 0
    · subst hd
      by_cases hp : pece = 0
      · subst hp
        exact ⟨_, read_no_pec table rx i2c command data, by simp⟩
      · refine ⟨_, read_pec table rx i2c pece command data hp, ?_⟩
        split_ifs <;> simp_all
    · refine ⟨_, read_read_fails table rd_ret rx i2c pece command data hd, ?_⟩
      by_cases hp : pece = 0 <;> simp [hp]
  · exact ⟨_, read_write_fails table wr_ret rd_ret rx i2c pece command data hw, by simp [hw]⟩

/-- C9: whenever the read returns 0 the output byte is the first byte the
transport read delivered; and with pece disabled the read returns 0 for
every handle that owns its transport when both transport phases succeed. -/
theorem adp1055_read_success_first_byte (table : Nat → Nat) (rx : Nat → Nat)
    (command data : Nat) :
    (∀ (wr_ret rd_ret : Int) (desc : Option adp1055_desc) (r : read_result),
      adp1055_read table wr_ret rd_ret rx desc command data = .ok r →
        r.ret = 0 → r.data = rx 0 % 256) ∧
    (∀ i2c : no_os_i2c_desc, ∃ r,
      adp1055_read table 0 0 rx (some ⟨some i2c, 0⟩) command data = .ok r ∧ r.ret = 0) := by
  constructor
  · intro wr_ret rd_ret desc r hr hret
    rcases desc with _ | ⟨_ | i2c, pece⟩
    · rw [read_null] at hr
      injection hr with hr
      subst hr
      simp [ EINVAL] at hret
    · rw [read_no_transport] at hr
      cases hr
    · by_cases hw : wr_ret = 0
      · subst hw
        by_cases hd : rd_ret = 0
        · subst hd
          by_cases hp : pece = 0
          · subst hp
            rw [read_no_pec] at hr
            injection hr with hr
            subst hr
            rfl
          · rw [read_pec table rx i2c pece command data hp] at hr
            injection hr with hr
            subst hr
            split_ifs at hret ⊢ with hc
            · rfl
            · simp [ EIO] at hret
        · rw [read_read_fails table rd_ret rx i2c pece command data hd] at hr
          injection hr with hr
          subst hr
          exact absurd hret hd
      · rw [read_write_fails table wr_ret rd_ret rx i2c pece command data hw] at hr
        injection hr with hr
        subst hr
        exact absurd hret hw
  · intro i2c
    exact ⟨_, read_no_pec table rx i2c command data, rfl⟩

set_option maxRecDepth 100000 in
theorem adp1055_read_success_first_byte_witness :
    adp1055_read (no_os_crc8_populate_msb CRC8_PEC) 0 0 (rx_pair 0x12 0x27)
        (some ⟨some ⟨0x70⟩, 1⟩) 0x01 0xAA =
      .ok ⟨0, 0x12, [.write [0x01] 0, .read 2 1]⟩ ∧
    (⟨0, 0x12, [.write [0x01] 0, .read 2 1]⟩ : read_result).data = rx_pair 0x12 0x27 0 % 256 :=
  have run : adp1055_read (no_os_crc8_populate_msb CRC8_PEC) 0 0 (rx_pair 0x12 0x27)
      (some ⟨some ⟨0x70⟩, 1⟩) 0x01 0xAA =
        .ok ⟨0, 0x12, [.write [0x01] 0, .read 2 1]⟩ := by
    rw [read_pec _ _ _ _ _ _ (by decide), if_pos (by decide)]
    rfl
  ⟨run, (adp1055_read_success_first_byte (no_os_crc8_populate_msb CRC8_PEC)
    (rx_pair 0x12 0x27) 0x01 0xAA).1 0 0 (some ⟨some ⟨0x70⟩, 1⟩)
      ⟨0, 0x12, [.write [0x01] 0, .read 2 1]⟩ run rfl⟩

/-- C10: if the phase-1 transport write fails with code e, the read returns e,
leaves the output byte alone and makes no transport read; if phase 1
succeeds and the phase-2 transport read fails with code e, the read returns
e and leaves the output byte alone, whatever bytes arrived and whatever the
PEC table holds (the PEC check is not reached). -/
theorem adp1055_read_transport_failure (table : Nat → Nat) (rd_ret : Int)
    (rx : Nat → Nat) (i2c : no_os_i2c_desc) (pece command data : Nat) (e : Int)
    (he : e ≠ 0) :
    adp1055_read table e rd_ret rx (some ⟨some i2c, pece⟩) command data =
      .ok ⟨e, data, [.write [command % 256] 0]⟩ ∧
    adp1055_read table 0 e rx (some ⟨some i2c, pece⟩) command data =
      .ok ⟨e, data, [.write [command % 256] 0, .read (if pece ≠ 0 then 2 else 1) 1]⟩ :=
  ⟨read_write_fails table e rd_ret rx i2c pece command data he,
    read_read_fails table e rx i2c pece command data he⟩

theorem adp1055_read_transport_failure_witness :
    ((-110 : Int) ≠ 0) ∧
    adp1055_read adp1055_crc8 (-110) 0 (rx_pair 0x12 0x00) (some ⟨some ⟨0x70⟩, 1⟩) 0x01 0xAA =
      .ok ⟨-110, 0xAA, [.write [0x01 % 256] 0]⟩ ∧
    adp1055_read adp1055_crc8 0 (-110) (rx_pair 0x12 0x00) (some ⟨some ⟨0x70⟩, 1⟩) 0x01 0xAA =
      .ok ⟨-110, 0xAA, [.write [0x01 % 256] 0, .read (if 1 ≠ 0 then 2 else 1) 1]⟩ :=
  ⟨by decide, adp1055_read_transport_failure adp1055_crc8 0 (rx_pair 0x12 0x00) ⟨0x70⟩ 1
    0x01 0xAA (-110) (by decide)⟩

/-! ## What the command-only and the legacy write do -/

theorem send_command_no_pec (table : Nat → Nat) (i2c_ret : Int) (i2c : no_os_i2c_desc)
    (command : Nat) :
    adp1055_send_command table i2c_ret (some ⟨some i2c, 0⟩) command =
      .ok ⟨none, [(i2c.slave_address <<< 1) % 256, command % 256, 0],
        [.write [(i2c.slave_address <<< 1) % 256] 1]⟩ := by
  simp [adp1055_send_command, frame_store, frame_slice, bind, Except.bind, pure, Except.pure]

theorem send_command_pec (table : Nat → Nat) (i2c_ret : Int) (i2c : no_os_i2c_desc)
    (pece command : Nat) (hp : pece ≠ 0) :
    adp1055_send_command table i2c_ret (some ⟨some i2c, pece⟩) command =
      .ok ⟨none, [(i2c.slave_address <<< 1) % 256, command % 256,
          no_os_crc8 table [(i2c.slave_address <<< 1) % 256] 0],
        [.write [(i2c.slave_address <<< 1) % 256] 1]⟩ := by
  simp [adp1055_send_command, hp, frame_store, frame_slice, bind, Except.bind, pure,
    Except.pure, crc8_mod]

theorem write_legacy_no_pec (table : Nat → Nat) (i2c_ret : Int) (i2c : no_os_i2c_desc)
    (command data : Nat) :
    adp1055_write_legacy table i2c_ret (some ⟨some i2c, 0⟩) command data =
      .ok ⟨i2c_ret, [.write [command % 256, data % 256] 1]⟩ := by
  simp [adp1055_write_legacy, frame_store, frame_slice, bind, Except.bind, pure, Except.pure,
    field_get_lsb]

theorem write_legacy_pec (table : Nat → Nat) (i2c_ret : Int) (i2c : no_os_i2c_desc)
    (pece command data : Nat) (hp : pece ≠ 0) :
    adp1055_write_legacy table i2c_ret (some ⟨some i2c, pece⟩) command data =
      .ok ⟨i2c_ret, [.write [command % 256, data % 256,
        no_os_crc8 table [(i2c.slave_address <<< 1) % 256, command % 256, data % 256] 0] 1]⟩ := by
  simp [adp1055_write_legacy, hp, frame_store, frame_slice, bind, Except.bind, pure,
    Except.pure, field_get_lsb, crc8_mod, ADP1055_WR_FRAME_SIZE]

/-- With one data byte the four-argument write always reaches the transport,
for a standard and for an extended command. -/
theorem write_one_defined (ext : Nat) (table : Nat → Nat) (i2c_ret : Int)
    (i2c : no_os_i2c_desc) (pece command data : Nat) :
    ∃ sent, adp1055_write ext table i2c_ret (some ⟨some i2c, pece⟩) command data 1 =
      .ok ⟨i2c_ret, [.write sent 1]⟩ := by
  by_cases h : command ≤ ext
  · exact ⟨_, write_standard_one ext table i2c_ret i2c pece command data h⟩
  · exact ⟨_, write_extended_one ext table i2c_ret i2c pece command data (Nat.lt_of_not_le h)⟩

/-! ## What remove and init do on each path -/

theorem remove_null (ext : Nat) (table : Nat → Nat) (i2c_ret : Int) :
    adp1055_remove ext table i2c_ret none = .ok ⟨- ENODEV, [], [], false, false⟩ := rfl

theorem remove_no_transport (ext : Nat) (table : Nat → Nat) (i2c_ret : Int) (pece : Nat) :
    adp1055_remove ext table i2c_ret (some ⟨none, pece⟩) = .ok ⟨0, [], [], true, true⟩ := rfl

theorem remove_write_fails (ext : Nat) (table : Nat → Nat) (i2c_ret : Int)
    (i2c : no_os_i2c_desc) (pece : Nat) (sent : List Nat) (h : i2c_ret ≠ 0)
    (hw : adp1055_write ext table i2c_ret (some ⟨some i2c, pece⟩) 0x01 0x00 1 =
      .ok ⟨i2c_ret, [.write sent 1]⟩) :
    adp1055_remove ext table i2c_ret (some ⟨some i2c, pece⟩) =
      .ok ⟨i2c_ret, [⟨0x01, 0x00, 1⟩], [.write sent 1], false, false⟩ := by
  simp [adp1055_remove, hw, h, bind, Except.bind, pure, Except.pure, ADP1055_OPERATION,
    ADP1055_OPERATION_OFF]

theorem remove_write_succeeds (ext : Nat) (table : Nat → Nat)
    (i2c : no_os_i2c_desc) (pece : Nat) (sent : List Nat)
    (hw : adp1055_write ext table 0 (some ⟨some i2c, pece⟩) 0x01 0x00 1 =
      .ok ⟨0, [.write sent 1]⟩) :
    adp1055_remove ext table 0 (some ⟨some i2c, pece⟩) =
      .ok ⟨0, [⟨0x01, 0x00, 1⟩], [.write sent 1], true, true⟩ := by
  simp [adp1055_remove, hw, bind, Except.bind, pure, Except.pure, ADP1055_OPERATION,
    ADP1055_OPERATION_OFF]

theorem remove_present (ext : Nat) (table : Nat → Nat) (i2c_ret : Int)
    (i2c : no_os_i2c_desc) (pece : Nat) :
    ∃ sent, adp1055_write ext table i2c_ret (some ⟨some i2c, pece⟩) 0x01 0x00 1 =
        .ok ⟨i2c_ret, [.write sent 1]⟩ ∧
      adp1055_remove ext table i2c_ret (some ⟨some i2c, pece⟩) =
        .ok ⟨i2c_ret, [⟨0x01, 0x00, 1⟩], [.write sent 1], decide (i2c_ret = 0),
          decide (i2c_ret = 0)⟩ := by
  obtain ⟨sent, hw⟩ := write_one_defined ext table i2c_ret i2c pece 0x01 0x00
  refine ⟨sent, hw, ?_⟩
  by_cases h : i2c_ret = 0
  · subst h
    simpa using remove_write_succeeds ext table i2c pece sent hw
  · simpa [h] using remove_write_fails ext table i2c_ret i2c pece sent h hw

theorem free_desc_present (ext : Nat) (table : Nat → Nat) (i2c_ret ret : Int)
    (i2c : no_os_i2c_desc) (pece : Nat) (calls : List write_call) (trace : List i2c_event) :
    ∃ sent, free_desc ext table i2c_ret ret ⟨some i2c, pece⟩ calls trace =
      .ok ⟨ret, none, calls ++ [⟨0x01, 0x00, 1⟩], trace ++ [.write sent 1], true,
        decide (i2c_ret = 0), decide (i2c_ret = 0), some ⟨some i2c, pece⟩⟩ := by
  obtain ⟨sent, _, hr⟩ := remove_present ext table i2c_ret i2c pece
  exact ⟨sent, by simp [free_desc, hr, bind, Except.bind, pure, Except.pure]⟩

theorem init_alloc_fails (ext : Nat) (table : Nat → Nat) (i2c_init_ret : Int)
    (wr : Nat → Int) (init_param : adp1055_init_param) :
    adp1055_init ext table false i2c_init_ret wr init_param =
      .ok ⟨- ENOMEM, none, [], [], false, false, false, none⟩ := rfl

theorem init_transport_fails (ext : Nat) (table : Nat → Nat) (i2c_init_ret : Int)
    (wr : Nat → Int) (init_param : adp1055_init_param) (h : i2c_init_ret ≠ 0) :
    adp1055_init ext table true i2c_init_ret wr init_param =
      .ok ⟨i2c_init_ret, none, [], [], false, true, true, some ⟨none, 0⟩⟩ := by
  simp [adp1055_init, h, free_desc, remove_no_transport, bind, Except.bind, pure, Except.pure]

theorem init_first_write_fails (ext : Nat) (table : Nat → Nat)
    (wr : Nat → Int) (init_param : adp1055_init_param) (h0 : wr 0 ≠ 0) :
    ∃ s1 s3, adp1055_init ext table true 0 wr init_param =
      .ok ⟨wr 0, none, [⟨0x01, 0x80, 1⟩, ⟨0x01, 0x00, 1⟩], [.write s1 1, .write s3 1], true,
        decide (wr 1 = 0), decide (wr 1 = 0),
        some ⟨some ⟨init_param.i2c_param.slave_address⟩, 0⟩⟩ := by
  obtain ⟨s1, h1⟩ := write_one_defined ext table (wr 0)
    ⟨init_param.i2c_param.slave_address⟩ 0 0x01 0x80
  obtain ⟨s3, h3⟩ := free_desc_present ext table (wr 1) (wr 0)
    ⟨init_param.i2c_param.slave_address⟩ 0 [⟨0x01, 0x80, 1⟩] [.write s1 1]
  refine ⟨s1, s3, ?_⟩
  simp [adp1055_init, h1, h0, h3, bind, Except.bind, ADP1050_OPERATION,
    ADP1050_OPERATION_ON, ADP1055_OPERATION, ADP1055_OPERATION_ON]

theorem init_runs_through (ext : Nat) (table : Nat → Nat)
    (wr : Nat → Int) (init_param : adp1055_init_param) (h0 : wr 0 = 0) :
    ∃ s1 s2 s3, adp1055_init ext table true 0 wr init_param =
      .ok ⟨wr 1, none,
        [⟨0x01, 0x80, 1⟩, ⟨0x02, init_param.on_off_config % 65536, 1⟩, ⟨0x01, 0x00, 1⟩],
        [.write s1 1, .write s2 1, .write s3 1], true,
        decide (wr 2 = 0), decide (wr 2 = 0),
        some ⟨some ⟨init_param.i2c_param.slave_address⟩, 0⟩⟩ := by
  obtain ⟨s1, h1⟩ := write_one_defined ext table (wr 0)
    ⟨init_param.i2c_param.slave_address⟩ 0 0x01 0x80
  obtain ⟨s2, h2⟩ := write_one_defined ext table (wr 1)
    ⟨init_param.i2c_param.slave_address⟩ 0 0x02 (init_param.on_off_config % 65536)
  obtain ⟨s3, h3⟩ := free_desc_present ext table (wr 2) (wr 1)
    ⟨init_param.i2c_param.slave_address⟩ 0
    [⟨0x01, 0x80, 1⟩, ⟨0x02, init_param.on_off_config % 65536, 1⟩]
    [.write s1 1, .write s2 1]
  refine ⟨s1, s2, s3, ?_⟩
  rw [h0] at h1
  simp [adp1055_init, h1, h2, h0, h3, bind, Except.bind, ADP1050_OPERATION,
    ADP1050_OPERATION_ON, ADP1055_OPERATION, ADP1055_OPERATION_ON, ADP1050_ON_OFF_CONFIG]

/-! ## Command-only transaction -/

/-- C11: the single transport write of `adp1055_send_command` starts at frame
index 0 and has length 1 whatever pece is: the transport is handed the
synthetic address byte alone, never the command byte or the PEC byte. -/
theorem adp1055_send_command_sends_address_byte (table : Nat → Nat) (i2c_ret : Int)
    (i2c : no_os_i2c_desc) (pece command : Nat) :
    ∃ r, adp1055_send_command table i2c_ret (some ⟨some i2c, pece⟩) command = .ok r ∧
      r.trace = [.write [(i2c.slave_address <<< 1) % 256] 1] := by
  by_cases hp : pece = 0
  · subst hp
    exact ⟨_, send_command_no_pec table i2c_ret i2c command, rfl⟩
  · exact ⟨_, send_command_pec table i2c_ret i2c pece command hp, rfl⟩

/-- C12: with the PEC table as the driver leaves it, the frame
`adp1055_send_command` builds for slave address 0x70, command 0x03 and pece
enabled is [0xE0, 0x03, 0x00]: its third byte is 0x00, while the CRC-8
(polynomial 0x07, seed 0) of the first frame byte [0xE0] is 0xAE. With pece
disabled the frame is [0xE0, 0x03, 0x00] as well, the third byte being the
untouched 0. -/
theorem adp1055_send_command_pec_is_zero :
    adp1055_send_command adp1055_crc8 0 (some ⟨some ⟨0x70⟩, 1⟩) 0x03 =
      .ok ⟨none, [0xE0, 0x03, 0x00], [.write [0xE0] 1]⟩ ∧
    crc8 [0xE0] 0 = 0xAE ∧
    adp1055_send_command adp1055_crc8 0 (some ⟨some ⟨0x70⟩, 0⟩) 0x03 =
      .ok ⟨none, [0xE0, 0x03, 0x00], [.write [0xE0] 1]⟩ := by
  refine ⟨?_, by decide, ?_⟩
  · rw [send_command_pec _ 0 ⟨0x70⟩ 1 0x03 (by decide)]
    rfl
  · rw [send_command_no_pec]
    rfl

/-- C13: the PEC of the command-only frame does not cover the command byte. With
the table populated for the polynomial 0x07, slave address 0x70, pece
enabled and command 0x03 the frame is [0xE0, 0x03, 0xAE], where 0xAE is the
CRC-8 of [0xE0] alone; the CRC-8 of all preceding bytes [0xE0, 0x03] is
0x4A. -/
theorem adp1055_send_command_pec_skips_command :
    adp1055_send_command (no_os_crc8_populate_msb CRC8_PEC) 0 (some ⟨some ⟨0x70⟩, 1⟩) 0x03 =
      .ok ⟨none, [0xE0, 0x03, 0xAE], [.write [0xE0] 1]⟩ ∧
    no_os_crc8 (no_os_crc8_populate_msb CRC8_PEC) [0xE0] 0 = 0xAE ∧
    no_os_crc8 (no_os_crc8_populate_msb CRC8_PEC) [0xE0, 0x03] 0 = 0x4A := by
  refine ⟨?_, by decide, by decide⟩
  rw [send_command_pec _ 0 ⟨0x70⟩ 1 0x03 (by decide)]
  have h : no_os_crc8 (no_os_crc8_populate_msb CRC8_PEC)
      [((⟨0x70⟩ : no_os_i2c_desc).slave_address <<< 1) % 256] 0 = 0xAE := by decide
  rw [h]
  rfl

/-- C14: for a handle that owns its transport, `adp1055_send_command` makes its
transport write and then reaches the end of the function without a `return`
statement: the call yields no value, neither 0 after a successful write nor
the error code of a failed one. -/
theorem adp1055_send_command_returns_no_value (table : Nat → Nat) (i2c_ret : Int)
    (i2c : no_os_i2c_desc) (pece command : Nat) :
    ∃ r, adp1055_send_command table i2c_ret (some ⟨some i2c, pece⟩) command = .ok r ∧
      r.ret = none := by
  by_cases hp : pece = 0
  · subst hp
    exact ⟨_, send_command_no_pec table i2c_ret i2c command, rfl⟩
  · exact ⟨_, send_command_pec table i2c_ret i2c pece command hp, rfl⟩

/-- C15: called with a null handle, the command-only transaction, the legacy
three-argument write, the four-argument write and the read each return
-EINVAL and make no transport call, whatever the other arguments are (the
read leaves the output byte alone). -/
theorem adp1055_null_handle (ext : Nat) (table : Nat → Nat) (i2c_ret rd_ret : Int)
    (rx : Nat → Nat) (command data byte_num : Nat) :
    adp1055_send_command table i2c_ret none command = .ok ⟨some (- EINVAL), [0, 0, 0], []⟩ ∧
    adp1055_write_legacy table i2c_ret none command data = .ok ⟨- EINVAL, []⟩ ∧
    adp1055_write ext table i2c_ret none command data byte_num = .ok ⟨- EINVAL, []⟩ ∧
    adp1055_read table i2c_ret rd_ret rx none command data = .ok ⟨- EINVAL, data, []⟩ :=
  ⟨rfl, rfl, rfl, rfl⟩

/-! ## Legacy three-argument write -/

/-- For a handle that owns its transport and every command and data value, the
legacy three-argument write makes one transport write (stop condition set)
of [command & 0xFF, data & 0xFF] when pece is disabled and of these two
bytes followed by what `no_os_crc8` computes over the table handed to it
for [address << 1, command & 0xFF, data & 0xFF] when pece is enabled, and
returns the transport result; no threshold enters. -/
theorem write_legacy_frame_bytes (table : Nat → Nat) (i2c_ret : Int)
    (i2c : no_os_i2c_desc) (pece command data : Nat) :
    adp1055_write_legacy table i2c_ret (some ⟨some i2c, pece⟩) command data =
      .ok ⟨i2c_ret, [.write
        (if pece = 0 then [command % 256, data % 256]
          else [command % 256, data % 256,
            no_os_crc8 table [(i2c.slave_address <<< 1) % 256, command % 256, data % 256] 0])
        1]⟩ := by
  by_cases hp : pece = 0
  · subst hp
    rw [write_legacy_no_pec]
    rfl
  · rw [write_legacy_pec table i2c_ret i2c pece command data hp, if_neg hp]

/-- C16: with the PEC table as the driver leaves it, the legacy three-argument
write for slave address 0x70, command 0x01, data 0x80 and pece enabled
hands the transport [0x01, 0x80, 0x00]: the trailing byte is 0x00, while
the CRC-8 (polynomial 0x07, seed 0) of [0xE0, 0x01, 0x80] is 0x52. With
pece disabled it hands the transport [0x01, 0x80], as claimed. -/
theorem adp1055_write_legacy_pec_is_zero :
    adp1055_write_legacy adp1055_crc8 0 (some ⟨some ⟨0x70⟩, 1⟩) 0x01 0x80 =
      .ok ⟨0, [.write [0x01, 0x80, 0x00] 1]⟩ ∧
    crc8 [0xE0, 0x01, 0x80] 0 = 0x52 ∧
    adp1055_write_legacy adp1055_crc8 0 (some ⟨some ⟨0x70⟩, 0⟩) 0x01 0x80 =
      .ok ⟨0, [.write [0x01, 0x80] 1]⟩ := by
  refine ⟨?_, by decide, ?_⟩
  · rw [write_legacy_pec _ 0 ⟨0x70⟩ 1 0x01 0x80 (by decide)]
    rfl
  · rw [write_legacy_no_pec]

/-! ## Device lifecycle -/

/-- C17: when allocation, transport initialisation and every transport write
succeed, `adp1055_init` returns 0 but stores nothing through the caller's
out-pointer, and before returning it has run the cleanup at `free_desc`:
the transport handle is released and the descriptor freed. -/
theorem adp1055_init_success_releases (ext : Nat) (table : Nat → Nat)
    (init_param : adp1055_init_param) :
    ∃ r, adp1055_init ext table true 0 (fun _ => 0) init_param = .ok r ∧
      r.ret = 0 ∧ r.out = none ∧ r.i2c_created = true ∧
      r.i2c_removed = true ∧ r.desc_freed = true := by
  obtain ⟨s1, s2, s3, h⟩ := init_runs_through ext table (fun _ => 0) init_param rfl
  exact ⟨_, h, rfl, rfl, rfl, rfl, rfl⟩

/-- C18: on a run in which allocation, transport initialisation and every
transport write succeed, `adp1055_init` issues three write transactions,
each with byte count 1 and each one transport write: OPERATION (0x01) with
data 0x80, ON_OFF_CONFIG (0x02) with the configured value, and then, from
the cleanup at `free_desc`, OPERATION (0x01) with data 0x00. -/
theorem adp1055_init_success_three_writes (ext : Nat) (table : Nat → Nat)
    (init_param : adp1055_init_param) :
    ∃ r s1 s2 s3, adp1055_init ext table true 0 (fun _ => 0) init_param = .ok r ∧
      r.calls = [⟨0x01, 0x80, 1⟩, ⟨0x02, init_param.on_off_config % 65536, 1⟩,
        ⟨0x01, 0x00, 1⟩] ∧
      r.trace = [.write s1 1, .write s2 1, .write s3 1] := by
  obtain ⟨s1, s2, s3, h⟩ := init_runs_through ext table (fun _ => 0) init_param rfl
  exact ⟨_, s1, s2, s3, h, rfl, rfl⟩

/-- C19: when allocation and transport initialisation succeed and every
transport write fails with -EIO, `adp1055_init` returns -EIO and stores
nothing through the out-pointer, but the device-off write of the cleanup
fails too and the cleanup returns before releasing anything: the transport
handle that was created is not released and the descriptor is not freed. -/
theorem adp1055_init_failure_leaks (ext : Nat) (table : Nat → Nat)
    (init_param : adp1055_init_param) :
    ∃ r, adp1055_init ext table true 0 (fun _ => - EIO) init_param = .ok r ∧
      r.ret = - EIO ∧ r.out = none ∧ r.i2c_created = true ∧
      r.i2c_removed = false ∧ r.desc_freed = false := by
  obtain ⟨s1, s3, h⟩ := init_first_write_fails ext table (fun _ => - EIO) init_param
    (by decide)
  have hne : decide ((- EIO : Int) = 0) = false := by decide
  exact ⟨_, h, rfl, rfl, rfl, hne, hne⟩

/-- C20: for a handle whose transport handle is present, `adp1055_remove` issues
one write transaction, OPERATION (0x01) with data 0x00 and byte count 1,
which makes one transport write; if that write fails with a code, remove
returns the code and releases neither the transport nor the descriptor; if
it succeeds, remove releases the transport, frees the descriptor and
returns 0. With no transport handle present remove makes no write, releases
and frees, and returns 0. -/
theorem adp1055_remove_contract (ext : Nat) (table : Nat → Nat) (i2c_ret : Int)
    (i2c : no_os_i2c_desc) (pece : Nat) :
    (∃ r sent, adp1055_remove ext table i2c_ret (some ⟨some i2c, pece⟩) = .ok r ∧
      r.calls = [⟨0x01, 0x00, 1⟩] ∧ r.trace = [.write sent 1] ∧
      adp1055_write ext table i2c_ret (some ⟨some i2c, pece⟩) 0x01 0x00 1 =
        .ok ⟨i2c_ret, [.write sent 1]⟩ ∧
      (i2c_ret ≠ 0 → r.ret = i2c_ret ∧ r.i2c_removed = false ∧ r.desc_freed = false) ∧
      (i2c_ret = 0 → r.ret = 0 ∧ r.i2c_removed = true ∧ r.desc_freed = true)) ∧
    adp1055_remove ext table i2c_ret (some ⟨none, pece⟩) = .ok ⟨0, [], [], true, true⟩ := by
  obtain ⟨sent, hw, hr⟩ := remove_present ext table i2c_ret i2c pece
  refine ⟨⟨_, sent, hr, rfl, rfl, hw, ?_, ?_⟩, rfl⟩
  · intro h
    simp [h]
  · intro h
    simp [h]

theorem adp1055_remove_contract_witness :
    (- EIO : Int) ≠ 0 ∧
    ∃ r, adp1055_remove 0xFF adp1055_crc8 (- EIO) (some ⟨some ⟨0x70⟩, 0⟩) = .ok r ∧
      r.ret = - EIO ∧ r.i2c_removed = false ∧ r.desc_freed = false := by
  obtain ⟨⟨r, _, hr, _, _, _, hfail, _⟩, _⟩ :=
    adp1055_remove_contract 0xFF adp1055_crc8 (- EIO) ⟨0x70⟩ 0
  exact ⟨by decide, r, hr, hfail (by decide)⟩

/-! ## Call shapes: what any call can hand to the transport -/

theorem send_command_trace_shape (table : Nat → Nat) (i2c_ret : Int)
    (desc : Option adp1055_desc) (command : Nat) (r : send_result)
    (h : adp1055_send_command table i2c_ret desc command = .ok r) :
    r.trace = [] ∨ ∃ sent stop, r.trace = [.write sent stop] := by
  rcases desc with _ | ⟨_ | i2c, pece⟩
  · simp [adp1055_send_command] at h
    subst h
    exact Or.inl rfl
  · simp [adp1055_send_command] at h
  · by_cases hp : pece = 0
    · subst hp
      rw [send_command_no_pec] at h
      injection h with h
      subst h
      exact Or.inr ⟨_, _, rfl⟩
    · rw [send_command_pec table i2c_ret i2c pece command hp] at h
      injection h with h
      subst h
      exact Or.inr ⟨_, _, rfl⟩

theorem write_legacy_trace_shape (table : Nat → Nat) (i2c_ret : Int)
    (desc : Option adp1055_desc) (command data : Nat) (r : write_result)
    (h : adp1055_write_legacy table i2c_ret desc command data = .ok r) :
    r.trace = [] ∨ ∃ sent stop, r.trace = [.write sent stop] := by
  rcases desc with _ | ⟨_ | i2c, pece⟩
  · simp [adp1055_write_legacy] at h
    subst h
    exact Or.inl rfl
  · simp [adp1055_write_legacy] at h
  · by_cases hp : pece = 0
    · subst hp
      rw [write_legacy_no_pec] at h
      injection h with h
      subst h
      exact Or.inr ⟨_, _, rfl⟩
    · rw [write_legacy_pec table i2c_ret i2c pece command data hp] at h
      injection h with h
      subst h
      exact Or.inr ⟨_, _, rfl⟩

theorem write_trace_shape (ext : Nat) (table : Nat → Nat) (i2c_ret : Int)
    (desc : Option adp1055_desc) (command data byte_num : Nat) (r : write_result)
    (h : adp1055_write ext table i2c_ret desc command data byte_num = .ok r) :
    r.trace = [] ∨ ∃ sent stop, r.trace = [.write sent stop] := by
  rcases desc with _ | ⟨_ | i2c, pece⟩
  · simp [adp1055_write] at h
    subst h
    exact Or.inl rfl
  · simp [adp1055_write] at h
  · simp only [adp1055_write, bind, Except.bind, pure, Except.pure] at h
    repeat' split at h
    all_goals first
      | (cases h; done)
      | (cases h; exact Or.inr ⟨_, _, rfl⟩)

theorem read_trace_shape (table : Nat → Nat) (wr_ret rd_ret : Int) (rx : Nat → Nat)
    (desc : Option adp1055_desc) (command data : Nat) (r : read_result)
    (h : adp1055_read table wr_ret rd_ret rx desc command data = .ok r) :
    r.trace = [] ∨ (∃ sent stop, r.trace = [.write sent stop]) ∨
      ∃ sent stop n stop2, r.trace = [.write sent stop, .read n stop2] := by
  rcases desc with _ | ⟨_ | i2c, pece⟩
  · rw [read_null] at h
    injection h with h
    subst h
    exact Or.inl rfl
  · rw [read_no_transport] at h
    cases h
  · by_cases hw : wr_ret = 0
    · subst hw
      by_cases hd : rd_ret = 0
      · subst hd
        by_cases hp : pece = 0
        · subst hp
          rw [read_no_pec] at h
          injection h with h
          subst h
          exact Or.inr (Or.inr ⟨_, _, _, _, rfl⟩)
        · rw [read_pec table rx i2c pece command data hp] at h
          injection h with h
          subst h
          split_ifs
          · exact Or.inr (Or.inr ⟨_, _, _, _, rfl⟩)
          · exact Or.inr (Or.inr ⟨_, _, _, _, rfl⟩)
      · rw [read_read_fails table rd_ret rx i2c pece command data hd] at h
        injection h with h
        subst h
        exact Or.inr (Or.inr ⟨_, _, _, _, rfl⟩)
    · rw [read_write_fails table wr_ret rd_ret rx i2c pece command data hw] at h
      injection h with h
      subst h
      exact Or.inr (Or.inl ⟨_, _, rfl⟩)

/-! ## The spec CRC-8 and the table-driven one -/

theorem populate_eq_shift (x : Nat) (hx : x < 256) :
    no_os_crc8_populate_msb CRC8_PEC x % 256 = (crc8_shift 0x07)^[8] x := by
  rw [Nat.mod_eq_of_lt (populate_lt x hx)]
  simp [no_os_crc8_populate_msb, CRC8_PEC, Nat.mod_eq_of_lt hx]

/-- With the table populated for the polynomial 0x07 the table-driven CRC is the
bitwise CRC-8 of the spec, for every byte sequence and seed. -/
theorem crc8_populated_eq (data : List Nat) (seed : Nat) :
    no_os_crc8 (no_os_crc8_populate_msb CRC8_PEC) data seed = crc8 data seed := by
  unfold no_os_crc8 crc8
  congr 1
  funext c b
  exact populate_eq_shift _ (Nat.mod_lt _ (by norm_num))

theorem shl_one_byte (a : Nat) (h : a < 128) : (a <<< 1) % 256 = 2 * a := by
  rw [Nat.shiftLeft_eq]
  omega

theorem shl_one_or_one_byte (a : Nat) (h : a < 128) : ((a <<< 1) ||| 0x1) % 256 = 2 * a + 1 := by
  have : ∀ n, n < 128 → ((n <<< 1) ||| 0x1) % 256 = 2 * n + 1 := by decide
  exact this a h

/-! ## The four-argument write with no data byte asked for -/

theorem write_standard_zero (ext : Nat) (table : Nat → Nat) (i2c_ret : Int)
    (i2c : no_os_i2c_desc) (pece command data : Nat) (h : command ≤ ext) :
    adp1055_write ext table i2c_ret (some ⟨some i2c, pece⟩) command data 0 =
      .ok ⟨i2c_ret, [.write [command % 256, data % 256] 1]⟩ := by
  have hn : ¬ command > ext := Nat.not_lt.mpr h
  simp [adp1055_write, hn, frame_store, frame_slice, bind, Except.bind, pure, Except.pure,
    field_get_lsb, field_get_lsb_1050, crc8_mod]

theorem write_extended_zero (ext : Nat) (table : Nat → Nat) (i2c_ret : Int)
    (i2c : no_os_i2c_desc) (pece command data : Nat) (h : ext < command) :
    adp1055_write ext table i2c_ret (some ⟨some i2c, pece⟩) command data 0 =
      .ok ⟨i2c_ret, [.write [command / 256 % 256, command % 256, data % 256] 1]⟩ := by
  simp [adp1055_write, h, frame_store, frame_slice, bind, Except.bind, pure, Except.pure,
    field_get_lsb, field_get_msb, crc8_mod]

/-! ## Null handle of remove, the PEC table, byte count validation -/

/-- C21 as stated fails: called with a null handle, `adp1055_remove` does not
return -EINVAL. -/
theorem adp1055_remove_null_not_einval :
    ¬ ∃ r, adp1055_remove 0xFF adp1055_crc8 0 none = .ok r ∧ r.ret = - EINVAL := by
  rintro ⟨r, hr, hret⟩
  rw [remove_null] at hr
  injection hr with hr
  subst hr
  revert hret
  decide

/-- C21 amended: called with a null handle, `adp1055_remove` returns -ENODEV,
makes no transport call, issues no write transaction and releases
nothing. -/
theorem adp1055_remove_null_handle (ext : Nat) (table : Nat → Nat) (i2c_ret : Int) :
    adp1055_remove ext table i2c_ret none = .ok ⟨- ENODEV, [], [], false, false⟩ := rfl

/-- C22: the PEC the driver computes over its own table is 0 for every frame,
not the bitwise CRC-8 of polynomial 0x07: for the byte sequence [0x01] the
driver value is 0x00 and the CRC-8 is 0x07. Both agree on [0x00], whose
CRC-8 is 0x00. -/
theorem adp1055_crc8_table_not_populated :
    no_os_crc8 adp1055_crc8 [0x01] 0 = 0x00 ∧ crc8 [0x01] 0 = 0x07 ∧
    no_os_crc8 adp1055_crc8 [0x00] 0 = 0x00 ∧ crc8 [0x00] 0 = 0x00 := by
  refine ⟨by decide, by decide, by decide, by decide⟩

/-- C23 as stated fails: with byte count 0 the four-argument write does not
return -EINVAL with no transport write. -/
theorem adp1055_write_byte_count_zero_not_rejected :
    ¬ ∃ r, adp1055_write 0xFF adp1055_crc8 0 (some ⟨some ⟨0x70⟩, 0⟩) 0x01 0x80 0 = .ok r ∧
      r.ret = - EINVAL ∧ r.trace = [] := by
  rintro ⟨r, hr, _, htrace⟩
  rw [write_standard_zero 0xFF adp1055_crc8 0 ⟨0x70⟩ 0 0x01 0x80 (by decide)] at hr
  injection hr with hr
  subst hr
  simp at htrace

/-- C23 amended: the four-argument write does not validate the byte count. For a
handle that owns its transport, every command and data, called with byte
count 0 it makes one transport write, of [command & 0xFF, data & 0xFF] for
a standard command and of [command high byte, command low byte,
data & 0xFF] for an extended command, and returns the transport result. -/
theorem adp1055_write_byte_count_zero (ext : Nat) (table : Nat → Nat) (i2c_ret : Int)
    (i2c : no_os_i2c_desc) (pece command data : Nat) :
    adp1055_write ext table i2c_ret (some ⟨some i2c, pece⟩) command data 0 =
      .ok ⟨i2c_ret, [.write
        (if command > ext then [command / 256 % 256, command % 256, data % 256]
          else [command % 256, data % 256]) 1]⟩ := by
  by_cases h : command > ext
  · rw [write_extended_zero ext table i2c_ret i2c pece command data h, if_pos h]
  · rw [write_standard_zero ext table i2c_ret i2c pece command data (Nat.le_of_not_lt h),
      if_neg h]

/-! ## No frame is sent twice, frame bounds, the two write forms -/

/-- C24: whatever the transport returns, a call of the command-only transaction,
of the legacy write or of the four-argument write that returns has made no
transport call or exactly one transport write, and a call of the read that
returns has made no transport call, one transport write, or one transport
write followed by one transport read. -/
theorem adp1055_at_most_one_transfer (ext : Nat) (table : Nat → Nat) (i2c_ret rd_ret : Int)
    (rx : Nat → Nat) (desc : Option adp1055_desc) (command data byte_num : Nat) :
    (∀ r, adp1055_send_command table i2c_ret desc command = .ok r →
      r.trace = [] ∨ ∃ sent stop, r.trace = [.write sent stop]) ∧
    (∀ r, adp1055_write_legacy table i2c_ret desc command data = .ok r →
      r.trace = [] ∨ ∃ sent stop, r.trace = [.write sent stop]) ∧
    (∀ r, adp1055_write ext table i2c_ret desc command data byte_num = .ok r →
      r.trace = [] ∨ ∃ sent stop, r.trace = [.write sent stop]) ∧
    (∀ r, adp1055_read table i2c_ret rd_ret rx desc command data = .ok r →
      r.trace = [] ∨ (∃ sent stop, r.trace = [.write sent stop]) ∨
        ∃ sent stop n stop2, r.trace = [.write sent stop, .read n stop2]) :=
  ⟨send_command_trace_shape table i2c_ret desc command,
    write_legacy_trace_shape table i2c_ret desc command data,
    write_trace_shape ext table i2c_ret desc command data byte_num,
    read_trace_shape table i2c_ret rd_ret rx desc command data⟩

theorem adp1055_at_most_one_transfer_witness :
    adp1055_read adp1055_crc8 0 0 (rx_pair 0x12 0x00) (some ⟨some ⟨0x70⟩, 0⟩) 0x01 0xAA =
      .ok ⟨0, 0x12, [.write [0x01] 0, .read 1 1]⟩ ∧
    ((⟨0, 0x12, [.write [0x01] 0, .read 1 1]⟩ : read_result).trace = [] ∨
      (∃ sent stop, (⟨0, 0x12, [.write [0x01] 0, .read 1 1]⟩ : read_result).trace =
        [.write sent stop]) ∨
      ∃ sent stop n stop2, (⟨0, 0x12, [.write [0x01] 0, .read 1 1]⟩ : read_result).trace =
        [.write sent stop, .read n stop2]) :=
  have run : adp1055_read adp1055_crc8 0 0 (rx_pair 0x12 0x00) (some ⟨some ⟨0x70⟩, 0⟩)
      0x01 0xAA = .ok ⟨0, 0x12, [.write [0x01] 0, .read 1 1]⟩ := by
    rw [read_no_pec]
    rfl
  ⟨run, (adp1055_at_most_one_transfer 0xFF adp1055_crc8 0 0 (rx_pair 0x12 0x00)
    (some ⟨some ⟨0x70⟩, 0⟩) 0x01 0xAA 1).2.2.2 _ run⟩

/-- C25: for the extended command 0xFE00 (threshold 0xFF) with byte count 2 the
four-argument write stores the PEC at index 5 of the 5-byte frame
[0xE0, 0xFE, 0x00, 0x34, 0x12] and hands the transport 5 bytes from index
1, a slice that ends at index 5: both leave the indices 0..4 of the
buffer. -/
theorem adp1055_write_extended_two_leaves_frame (table : Nat → Nat) :
    adp1055_write 0xFF table 0 (some ⟨some ⟨0x70⟩, 1⟩) 0xFE00 0x1234 2 =
      .error .out_of_bounds ∧
    (∀ p, frame_store [0xE0, 0xFE, 0x00, 0x34, 0x12] 5 p = .error .out_of_bounds) ∧
    frame_slice [0xE0, 0xFE, 0x00, 0x34, 0x12] 1 ((2 + 3) % 256) = .error .out_of_bounds :=
  ⟨write_extended_two 0xFF table 0 ⟨0x70⟩ 1 0xFE00 0x1234 (by decide),
    fun _ => rfl, rfl⟩

/-- C26: for the standard command 0x01 and byte count 1 the four-argument write
does not hand the transport what the legacy write does. With pece disabled
it sends [0x01, data & 0xFF, 0x00] where the legacy write sends
[0x01, data & 0xFF]; with pece enabled (table populated for the polynomial
0x07, slave address 0x70, data 0x80) it sends [0x01, 0x80, 0x00] where the
legacy write sends [0x01, 0x80, 0x52]. -/
theorem adp1055_write_differs_from_legacy (ext : Nat) (table : Nat → Nat) (i2c_ret : Int)
    (i2c : no_os_i2c_desc) (data : Nat) :
    adp1055_write (ext + 1) table i2c_ret (some ⟨some i2c, 0⟩) 0x01 data 1 =
      .ok ⟨i2c_ret, [.write [0x01, data % 256, 0x00] 1]⟩ ∧
    adp1055_write_legacy table i2c_ret (some ⟨some i2c, 0⟩) 0x01 data =
      .ok ⟨i2c_ret, [.write [0x01, data % 256] 1]⟩ ∧
    adp1055_write (ext + 1) (no_os_crc8_populate_msb CRC8_PEC) i2c_ret
        (some ⟨some ⟨0x70⟩, 1⟩) 0x01 0x80 1 =
      .ok ⟨i2c_ret, [.write [0x01, 0x80, 0x00] 1]⟩ ∧
    adp1055_write_legacy (no_os_crc8_populate_msb CRC8_PEC) i2c_ret
        (some ⟨some ⟨0x70⟩, 1⟩) 0x01 0x80 =
      .ok ⟨i2c_ret, [.write [0x01, 0x80, 0x52] 1]⟩ := by
  refine ⟨?_, ?_, ?_, ?_⟩
  · rw [write_standard_one (ext + 1) table i2c_ret i2c 0 0x01 data (Nat.le_add_left 1 ext)]
  · rw [write_legacy_no_pec]
  · rw [write_standard_one (ext + 1) _ i2c_ret ⟨0x70⟩ 1 0x01 0x80 (Nat.le_add_left 1 ext)]
  · rw [write_legacy_pec _ i2c_ret ⟨0x70⟩ 1 0x01 0x80 (by decide)]
    have h : no_os_crc8 (no_os_crc8_populate_msb CRC8_PEC)
        [((⟨0x70⟩ : no_os_i2c_desc).slave_address <<< 1) % 256, 0x01 % 256, 0x80 % 256] 0
          = 0x52 := by decide
    rw [h]

theorem send_command_frame_bytes (table : Nat → Nat) (i2c_ret : Int)
    (i2c : no_os_i2c_desc) (pece command : Nat) :
    ∃ r, adp1055_send_command table i2c_ret (some ⟨some i2c, pece⟩) command = .ok r ∧
      r.val = [(i2c.slave_address <<< 1) % 256, command % 256,
        if pece = 0 then 0 else no_os_crc8 table [(i2c.slave_address <<< 1) % 256] 0] := by
  by_cases hp : pece = 0
  · subst hp
    exact ⟨_, send_command_no_pec table i2c_ret i2c command, by simp⟩
  · exact ⟨_, send_command_pec table i2c_ret i2c pece command hp, by simp [hp]⟩

/-! ## The pece flag of init and the address bytes -/

theorem init_descriptor (ext : Nat) (table : Nat → Nat) (wr : Nat → Int)
    (init_param : adp1055_init_param) :
    ∃ r, adp1055_init ext table true 0 wr init_param = .ok r ∧
      r.descriptor = some ⟨some ⟨init_param.i2c_param.slave_address⟩, 0⟩ := by
  by_cases h0 : wr 0 = 0
  · obtain ⟨s1, s2, s3, h⟩ := init_runs_through ext table wr init_param h0
    exact ⟨_, h, rfl⟩
  · obtain ⟨s1, s3, h⟩ := init_first_write_fails ext table wr init_param h0
    exact ⟨_, h, rfl⟩

/-- C27: `adp1055_init` never reads `init_param.pece`. With `init_param.pece`
= 1 (transport initialisation succeeding) the descriptor it builds has pece
0, and the whole call, bus traffic included, is the one made for
`init_param.pece` = 0. -/
theorem adp1055_init_ignores_pece (ext : Nat) (table : Nat → Nat) (wr : Nat → Int)
    (i2c_param : no_os_i2c_init_param) (on_off_config : Nat) :
    (∃ r, adp1055_init ext table true 0 wr ⟨i2c_param, 1, on_off_config⟩ = .ok r ∧
      r.descriptor = some ⟨some ⟨i2c_param.slave_address⟩, 0⟩) ∧
    adp1055_init ext table true 0 wr ⟨i2c_param, 1, on_off_config⟩ =
      adp1055_init ext table true 0 wr ⟨i2c_param, 0, on_off_config⟩ :=
  ⟨init_descriptor ext table wr ⟨i2c_param, 1, on_off_config⟩, rfl⟩

/-- C28: for a 7-bit slave address a, the address byte at index 0 of the frame
of the command-only transaction is 2*a; the address byte that heads the PEC
input of the legacy write and of the four-argument write is 2*a; and the
read checks its PEC over [2*a, command, 2*a + 1, data byte]. -/
theorem adp1055_address_byte (ext : Nat) (table : Nat → Nat) (i2c_ret : Int)
    (rx : Nat → Nat) (a pece command data : Nat) (ha : a < 128) :
    (∃ r, adp1055_send_command table i2c_ret (some ⟨some ⟨a⟩, pece⟩) command = .ok r ∧
      r.val = [2 * a, command % 256,
        if pece = 0 then 0 else no_os_crc8 table [2 * a] 0]) ∧
    (pece ≠ 0 → adp1055_write_legacy table i2c_ret (some ⟨some ⟨a⟩, pece⟩) command data =
      .ok ⟨i2c_ret, [.write [command % 256, data % 256,
        no_os_crc8 table [2 * a, command % 256, data % 256] 0] 1]⟩) ∧
    (command ≤ ext → adp1055_write ext table i2c_ret (some ⟨some ⟨a⟩, pece⟩) command data 2 =
      .ok ⟨i2c_ret, [.write [command % 256, data % 256, data / 256 % 256,
        no_os_crc8 table [2 * a, command % 256, data % 256] 0] 1]⟩) ∧
    (ext < command → adp1055_write ext table i2c_ret (some ⟨some ⟨a⟩, pece⟩) command data 1 =
      .ok ⟨i2c_ret, [.write [command / 256 % 256, command % 256, data % 256,
        no_os_crc8 table [2 * a, command / 256 % 256, command % 256] 0] 1]⟩) ∧
    (pece ≠ 0 → ∃ r, adp1055_read table 0 0 rx (some ⟨some ⟨a⟩, pece⟩) command data = .ok r ∧
      (r.ret = 0 ↔ rx 1 % 256 =
        no_os_crc8 table [2 * a, command % 256, 2 * a + 1, rx 0 % 256] 0)) := by
  have h0 : ((⟨a⟩ : no_os_i2c_desc).slave_address <<< 1) % 256 = 2 * a := shl_one_byte a ha
  have h1 : (((⟨a⟩ : no_os_i2c_desc).slave_address <<< 1) ||| 0x1) % 256 = 2 * a + 1 :=
    shl_one_or_one_byte a ha
  refine ⟨?_, ?_, ?_, ?_, ?_⟩
  · obtain ⟨r, hr, hv⟩ := send_command_frame_bytes table i2c_ret ⟨a⟩ pece command
    exact ⟨r, hr, by rw [hv, h0]⟩
  · intro hp
    rw [write_legacy_pec table i2c_ret ⟨a⟩ pece command data hp, h0]
  · intro h
    rw [write_standard_two ext table i2c_ret ⟨a⟩ pece command data h, h0]
  · intro h
    rw [write_extended_one ext table i2c_ret ⟨a⟩ pece command data h, h0]
  · intro hp
    refine ⟨_, read_pec table rx ⟨a⟩ pece command data hp, ?_⟩
    rw [h0, h1]
    split_ifs with hc
    · simp [hc]
    · simp [hc, EIO]

theorem adp1055_address_byte_witness :
    0x70 < 128 ∧
    ∃ r, adp1055_send_command adp1055_crc8 0 (some ⟨some ⟨0x70⟩, 0⟩) 0x03 = .ok r ∧
      r.val = [2 * 0x70, 0x03 % 256,
        if 0 = 0 then 0 else no_os_crc8 adp1055_crc8 [2 * 0x70] 0] :=
  ⟨by decide, (adp1055_address_byte 0xFF adp1055_crc8 0 (rx_pair 0 0) 0x70 0 0x03 0
    (by decide)).1⟩

end ADP1055
